import Mathlib

/-!
Verification of the monthly rebalancing backtest engine of the repository
(`Data Extract/Strategy.py`, with the transaction-cost step of
`Harsh_Tank_QuantStrategy_Yuzhou/Momentum_Strategy/backtesting.py`).

Instruments (tickers) are modelled as natural numbers, trading dates as
natural numbers, and daily returns as rationals; the statistical layer
(z-scores, annualized volatility) uses real numbers because it takes
square roots.  Pandas `NaN` values are modelled as `Option.none`.
-/

/-- The Rebalance Tracker state: the previous period's long and short
baskets (`prev_long`, `prev_short` in `Strategy.py`, lines 76-77). -/
structure TrackerState where
  prev_long : Finset ℕ
  prev_short : Finset ℕ
deriving DecidableEq

/-- The mutual-exclusion step of the Cross-Sectional Ranker
(`Strategy.py` lines 111-112): `long_stocks = long_stocks - short_stocks`
followed by `short_stocks = short_stocks - long_stocks`, where the second
line subtracts the already-updated long set. -/
def excludeOverlap (long_stocks short_stocks : Finset ℕ) :
    Finset ℕ × Finset ℕ :=
  let long2 := long_stocks \ short_stocks
  let short2 := short_stocks \ long2
  (long2, short2)

/-- Turnover of period `i` (`Strategy.py` lines 115-120): `0` when
`i == 0`, otherwise `len(long - prev_long) + len(short - prev_short)`. -/
def turnover (i : ℕ) (st : TrackerState)
    (long_stocks short_stocks : Finset ℕ) : ℕ :=
  if i = 0 then 0
  else (long_stocks \ st.prev_long).card + (short_stocks \ st.prev_short).card

/-- The transaction-cost multiplier (`Strategy.py` line 126):
`1 - transaction_cost_rate * turnover`. -/
def cost_multiplier (rate : ℚ) (t : ℕ) : ℚ := 1 - rate * t

/-- One month of the backtest loop, abstracted at the point where the
raw top/bottom percentile selections are already known: `population` is
`len(df_month)`, `rawLong`/`rawShort` are the `head(top_n)`/`tail(bottom_n)`
ticker sets, and `forwardEmpty` states that `df_next_month` is empty. -/
structure PeriodInput where
  population : ℕ
  rawLong : Finset ℕ
  rawShort : Finset ℕ
  forwardEmpty : Bool

/-- What the loop body records for a processed (non-skipped) period. -/
structure PeriodOutcome where
  turn : ℕ
  long_stocks : Finset ℕ
  short_stocks : Finset ℕ
deriving DecidableEq

/-- The body of the month loop of `Strategy.py` (lines 79-181), up to the
return aggregation: skip (`continue`) when `len(df_month) < 50` (line 87,
before any state change); otherwise apply the exclusion step, compute the
turnover, replace the tracker state with the new baskets (lines 121-123),
and then skip when the forward month is empty (lines 133-134, after the
state change).  Returns the new tracker state and, for processed periods,
the recorded outcome. -/
def processPeriod (i : ℕ) (st : TrackerState) (p : PeriodInput) :
    TrackerState × Option PeriodOutcome :=
  if p.population < 50 then (st, none)
  else
    let baskets := excludeOverlap p.rawLong p.rawShort
    let t := turnover i st baskets.1 baskets.2
    let st2 : TrackerState := ⟨baskets.1, baskets.2⟩
    if p.forwardEmpty then (st2, none)
    else (st2, some ⟨t, baskets.1, baskets.2⟩)

/-- The month loop of `Strategy.py` (line 79): months processed in
ascending order, the loop index `i` advancing on every month, skipped
months contributing nothing. -/
def backtestLoop : ℕ → TrackerState → List PeriodInput → List PeriodOutcome
  | _, _, [] => []
  | i, st, p :: ps =>
    match processPeriod i st p with
    | (st2, none) => backtestLoop (i + 1) st2 ps
    | (st2, some o) => o :: backtestLoop (i + 1) st2 ps

/-- One row of the forward-month daily data (`df_next_month`): a trading
date, a ticker and its daily return. -/
structure Row where
  date : ℕ
  ticker : ℕ
  ret : ℚ
deriving DecidableEq

/-- The per-row strategy return (`Strategy.py` lines 146-150):
`Daily_Return` for long-basket tickers, `-Daily_Return` for short-basket
tickers, `0` otherwise (the long test comes first). -/
def Strategy_Return (long_stocks short_stocks : Finset ℕ) (r : Row) : ℚ :=
  if r.ticker ∈ long_stocks then r.ret
  else if r.ticker ∈ short_stocks then -r.ret
  else 0

/-- The denominator `n_total` (`Strategy.py` line 158):
`n_long + n_short if (n_long + n_short) != 0 else 1`. -/
def n_total (long_stocks short_stocks : Finset ℕ) : ℕ :=
  if long_stocks.card + short_stocks.card ≠ 0
  then long_stocks.card + short_stocks.card else 1

/-- The daily strategy return for date `d` (`Strategy.py` line 162):
the sum of `Strategy_Return` over the rows of that date, divided by
`n_total`. -/
def daily_strategy (long_stocks short_stocks : Finset ℕ)
    (rows : List Row) (d : ℕ) : ℚ :=
  ((rows.filter (fun r => r.date == d)).map
      (Strategy_Return long_stocks short_stocks)).sum
    / (n_total long_stocks short_stocks : ℚ)

/-- The transaction-cost step of `Strategy.py` (lines 164-167): when the
daily series is non-empty, the first day's value is multiplied by the
cost multiplier; every other day is untouched. -/
def apply_cost_first_day (c : ℚ) : List ℚ → List ℚ
  | [] => []
  | x :: xs => (x * c) :: xs

/-- The transaction-cost step of `BacktestEngine.run_backtest`
(`backtesting.py` line 24): `self.strategy_returns -= transaction_cost`,
i.e. the flat rate is subtracted from every observation of the series. -/
def engine_cost_step (rate : ℚ) (rets : List ℚ) : List ℚ :=
  rets.map (fun r => r - rate)

/-- The per-row benchmark return (`Strategy.py` lines 170-173):
`Daily_Return` for tickers in `all_stocks` (the month-end cross-section),
`0` otherwise. -/
def Benchmark_Return (all_stocks : Finset ℕ) (r : Row) : ℚ :=
  if r.ticker ∈ all_stocks then r.ret else 0

/-- The daily benchmark return for date `d` (`Strategy.py` line 175):
the pandas groupby-mean of `Benchmark_Return` over all rows of that date,
i.e. their sum divided by the number of rows of that date. -/
def daily_benchmark (all_stocks : Finset ℕ) (rows : List Row) (d : ℕ) : ℚ :=
  let g := rows.filter (fun r => r.date == d)
  (g.map (Benchmark_Return all_stocks)).sum / (g.length : ℚ)

/-- Written from the spec's words, for comparison with `daily_benchmark`:
the equal-weight mean of the daily returns of exactly the eligible
instruments, with ineligible instruments contributing to neither the
numerator nor the denominator. -/
def daily_benchmark_eligible_only (all_stocks : Finset ℕ)
    (rows : List Row) (d : ℕ) : ℚ :=
  let g := rows.filter (fun r => r.date == d && decide (r.ticker ∈ all_stocks))
  (g.map Row.ret).sum / (g.length : ℚ)

/-- Mean of a list of reals (pandas `Series.mean`): sum divided by length. -/
noncomputable def listMean (l : List ℝ) : ℝ := l.sum / (l.length : ℝ)

/-- Sample variance with divisor `N - 1`, the `ddof=1` default of pandas
`Series.std` used by `Strategy.py` (lines 91-93, 214).  For fewer than
two observations pandas returns NaN; that case is kept out of this real
number (the NaN-aware `annual_vol` below guards it with a length test,
and the ranker's cross-sections have at least 50 rows). -/
noncomputable def sample_var (l : List ℝ) : ℝ :=
  ((l.map (fun x => (x - listMean l) ^ 2)).sum) / ((l.length : ℝ) - 1)

/-- Sample standard deviation: square root of `sample_var`. -/
noncomputable def sample_std (l : List ℝ) : ℝ := Real.sqrt (sample_var l)

/-- Written from the spec's words, for comparison with `sample_var`:
population variance with divisor `N`. -/
noncomputable def pop_var (l : List ℝ) : ℝ :=
  ((l.map (fun x => (x - listMean l) ^ 2)).sum) / (l.length : ℝ)

/-- Written from the spec's words: population standard deviation. -/
noncomputable def pop_std (l : List ℝ) : ℝ := Real.sqrt (pop_var l)

/-- The z-score computed by `Strategy.py` (lines 91-93):
`(x - mean) / std` with the pandas sample standard deviation. -/
noncomputable def zscore (l : List ℝ) (x : ℝ) : ℝ := (x - listMean l) / sample_std l

/-- Written from the spec's words, for comparison with `zscore`:
`(x - mean) / population standard deviation`. -/
noncomputable def zscore_pop (l : List ℝ) (x : ℝ) : ℝ := (x - listMean l) / pop_std l

/-- The z-score with pandas NaN tracking: when the cross-sectional
standard deviation is zero the float division `0/0` yields NaN,
modelled as `none`. -/
noncomputable def zscoreOpt (l : List ℝ) (x : ℝ) : Option ℝ :=
  if sample_std l = 0 then none else some (zscore l x)

/-- The composite score (`Strategy.py` line 97):
`Z_Mom20 + Z_Mom60 - Z_Vol20`, with float NaN propagation — if any
z-score is NaN the sum is NaN. -/
noncomputable def Factor_Score (z1 z2 z3 : Option ℝ) : Option ℝ :=
  match z1, z2, z3 with
  | some a, some b, some c => some (a + b - c)
  | _, _, _ => none

/-- Written from the spec's words, for comparison with `Factor_Score`:
when a factor's z-score is undefined the composite falls back to the
remaining well-defined factors (an undefined factor contributes nothing). -/
noncomputable def Factor_Score_fallback (z1 z2 z3 : Option ℝ) : Option ℝ :=
  some (z1.getD 0 + z2.getD 0 - z3.getD 0)

/-- Annualized return (`Strategy.py` line 213): `mean * 252`; the pandas
mean of an empty series is NaN, modelled as `none`. -/
noncomputable def annual_return (l : List ℝ) : Option ℝ :=
  if l.length = 0 then none else some (listMean l * 252)

/-- Annualized volatility (`Strategy.py` line 214): `std * sqrt(252)`
with the pandas sample standard deviation; for fewer than two
observations `std(ddof=1)` is NaN, modelled as `none`. -/
noncomputable def annual_vol (l : List ℝ) : Option ℝ :=
  if 2 ≤ l.length then some (sample_std l * Real.sqrt 252) else none

/-- Sharpe ratio (`Strategy.py` line 215):
`annual_return / annual_vol if annual_vol != 0 else np.nan`.  A NaN
volatility compares unequal to 0 in Python, and the division then
yields NaN, so a NaN volatility gives a NaN Sharpe ratio. -/
noncomputable def sharpe_ratio (l : List ℝ) : Option ℝ :=
  match annual_vol l with
  | none => none
  | some v => if v ≠ 0 then (annual_return l).map (fun a => a / v) else none

/-- The cumulative growth curve (`Strategy.py` line 193):
`(1 + r).cumprod()`, element `i` being the product of `1 + r_j` for
`j ≤ i`. -/
noncomputable def strategy_cum (l : List ℝ) : List ℝ :=
  (l.scanl (fun acc r => acc * (1 + r)) 1).tail

/-- Running maximum of a series (pandas `cummax`). -/
noncomputable def cum_max : List ℝ → List ℝ
  | [] => []
  | x :: xs => List.scanl max x xs

/-- The drawdown series (`Strategy.py` line 216):
`cum / cum.cummax() - 1`, elementwise. -/
noncomputable def drawdown_series (l : List ℝ) : List ℝ :=
  (List.zip (strategy_cum l) (cum_max (strategy_cum l))).map
    (fun p => p.1 / p.2 - 1)

/-- Maximum drawdown (`Strategy.py` line 216): the minimum of the
drawdown series, NaN (modelled as `none`) on an empty series. -/
noncomputable def max_drawdown (l : List ℝ) : Option ℝ := (drawdown_series l).min?

/-- C1 counterexample: for raw lists both equal to `{0}`, instrument `0`
lies in the intersection of the two computed lists, yet after the
exclusion step it remains in the final short basket — it is not removed
from both baskets as the claim states. -/
theorem exclusion_keeps_intersection_cex :
    0 ∈ ({0} : Finset ℕ) ∩ ({0} : Finset ℕ) ∧
    (excludeOverlap {0} {0}).1 = ∅ ∧ (excludeOverlap {0} {0}).2 = {0} := by
  decide

/-- C1 (amended): any instrument of the intersection of the raw long and
short lists is removed from the long basket, but it remains in the final
short basket, because the second subtraction uses the already-reduced
long set; the two final baskets are nevertheless disjoint. -/
theorem exclusion_removes_from_long_only (L S : Finset ℕ) (x : ℕ)
    (h : x ∈ L ∩ S) :
    x ∉ (excludeOverlap L S).1 ∧ x ∈ (excludeOverlap L S).2 ∧
    Disjoint (excludeOverlap L S).1 (excludeOverlap L S).2 := by
  obtain ⟨hL, hS⟩ := Finset.mem_inter.mp h
  refine ⟨?_, ?_, ?_⟩
  · simp [excludeOverlap, hS]
  · simp [excludeOverlap, hL, hS]
  · simpa [excludeOverlap] using Finset.disjoint_sdiff

/-- Witness for the amended C1 at the concrete raw lists `{0}` and `{0}`. -/
theorem exclusion_removes_from_long_only_witness :
    0 ∈ ({0} : Finset ℕ) ∩ ({0} : Finset ℕ) ∧
    (0 ∉ (excludeOverlap {0} {0}).1 ∧ 0 ∈ (excludeOverlap {0} {0}).2 ∧
      Disjoint (excludeOverlap {0} {0}).1 (excludeOverlap {0} {0}).2) :=
  ⟨by decide, exclusion_removes_from_long_only {0} {0} 0 (by decide)⟩

/-- C7: after the exclusion step the final long basket and the final
short basket are disjoint, for every pair of raw lists. -/
theorem final_baskets_disjoint (L S : Finset ℕ) :
    Disjoint (excludeOverlap L S).1 (excludeOverlap L S).2 := by
  simpa [excludeOverlap] using Finset.disjoint_sdiff

/-- C2: the turnover of period index 0 is 0 for every tracker state and
every pair of baskets; for a nonzero period index the turnover is the
number of additions to the long basket plus the number of additions to
the short basket; and for every processed (population ≥ 50) period the
tracker state afterwards is exactly the new baskets. -/
theorem turnover_state_spec :
    (∀ (st : TrackerState) (L S : Finset ℕ), turnover 0 st L S = 0) ∧
    (∀ (i : ℕ) (st : TrackerState) (L S : Finset ℕ), i ≠ 0 →
      turnover i st L S =
        (L \ st.prev_long).card + (S \ st.prev_short).card) ∧
    (∀ (i : ℕ) (st : TrackerState) (p : PeriodInput),
      ¬ p.population < 50 →
      (processPeriod i st p).1 =
        ⟨(excludeOverlap p.rawLong p.rawShort).1,
         (excludeOverlap p.rawLong p.rawShort).2⟩) := by
  refine ⟨fun st L S => by simp [turnover],
    fun i st L S h => by simp [turnover, h], fun i st p h => ?_⟩
  rw [processPeriod, if_neg h]
  cases hf : p.forwardEmpty <;> simp [hf]

/-- Witness for C2 at concrete states and baskets. -/
theorem turnover_state_spec_witness :
    turnover 0 ⟨{0}, {1}⟩ {2} {3} = 0 ∧
    turnover 1 ⟨{0}, {1}⟩ {0, 2} {3} =
      (({0, 2} : Finset ℕ) \ {0}).card + (({3} : Finset ℕ) \ {1}).card ∧
    (processPeriod 1 ⟨{0}, {1}⟩ ⟨50, {2}, {3}, false⟩).1 =
      ⟨(excludeOverlap {2} {3}).1, (excludeOverlap {2} {3}).2⟩ :=
  ⟨turnover_state_spec.1 ⟨{0}, {1}⟩ {2} {3},
   turnover_state_spec.2.1 1 ⟨{0}, {1}⟩ {0, 2} {3} (by decide),
   turnover_state_spec.2.2 1 ⟨{0}, {1}⟩ ⟨50, {2}, {3}, false⟩ (by decide)⟩

/-- C10: a period skipped for insufficient population (fewer than 50
instruments) leaves the tracker state unchanged and produces no outcome,
so the rest of the loop runs against the last non-skipped baskets; a
period with enough population but an empty forward month first replaces
the tracker state with its own baskets and only then is skipped. -/
theorem skip_state_behavior :
    (∀ (i : ℕ) (st : TrackerState) (p : PeriodInput) (ps : List PeriodInput),
      p.population < 50 →
      (processPeriod i st p).1 = st ∧ (processPeriod i st p).2 = none ∧
      backtestLoop i st (p :: ps) = backtestLoop (i + 1) st ps) ∧
    (∀ (i : ℕ) (st : TrackerState) (p : PeriodInput) (ps : List PeriodInput),
      ¬ p.population < 50 → p.forwardEmpty = true →
      (processPeriod i st p).1 =
        ⟨(excludeOverlap p.rawLong p.rawShort).1,
         (excludeOverlap p.rawLong p.rawShort).2⟩ ∧
      (processPeriod i st p).2 = none ∧
      backtestLoop i st (p :: ps) =
        backtestLoop (i + 1)
          ⟨(excludeOverlap p.rawLong p.rawShort).1,
           (excludeOverlap p.rawLong p.rawShort).2⟩ ps) := by
  constructor
  · intro i st p ps h
    refine ⟨by simp [processPeriod, h], by simp [processPeriod, h], ?_⟩
    rw [backtestLoop]
    simp [processPeriod, h]
  · intro i st p ps h hf
    refine ⟨by simp [processPeriod, h, hf], by simp [processPeriod, h, hf], ?_⟩
    rw [backtestLoop]
    simp [processPeriod, h, hf]

/-- Witness for C10: a population-40 period keeps the state `⟨{9}, {8}⟩`;
a population-50 period with an empty forward month installs its own
baskets before being skipped. -/
theorem skip_state_behavior_witness :
    ((processPeriod 0 ⟨{9}, {8}⟩ ⟨40, {1}, {2}, false⟩).1 = ⟨{9}, {8}⟩ ∧
      (processPeriod 0 ⟨{9}, {8}⟩ ⟨40, {1}, {2}, false⟩).2 = none ∧
      backtestLoop 0 ⟨{9}, {8}⟩ [⟨40, {1}, {2}, false⟩] =
        backtestLoop 1 ⟨{9}, {8}⟩ []) ∧
    ((processPeriod 3 ⟨{9}, {8}⟩ ⟨50, {1}, {2}, true⟩).1 =
        ⟨(excludeOverlap {1} {2}).1, (excludeOverlap {1} {2}).2⟩ ∧
      (processPeriod 3 ⟨{9}, {8}⟩ ⟨50, {1}, {2}, true⟩).2 = none ∧
      backtestLoop 3 ⟨{9}, {8}⟩ [⟨50, {1}, {2}, true⟩] =
        backtestLoop 4 ⟨(excludeOverlap {1} {2}).1,
          (excludeOverlap {1} {2}).2⟩ []) :=
  ⟨skip_state_behavior.1 0 ⟨{9}, {8}⟩ ⟨40, {1}, {2}, false⟩ [] (by decide),
   skip_state_behavior.2 3 ⟨{9}, {8}⟩ ⟨50, {1}, {2}, true⟩ [] (by decide) rfl⟩

/-- C3 counterexample: the transaction-cost step of
`BacktestEngine.run_backtest` changes the value of a non-first
observation of the return series, so the cost is not applied only to the
first forward day's return. -/
theorem engine_cost_alters_later_days_cex :
    (engine_cost_step (1 / 1000) [1 / 100, 1 / 100]).get? 1 ≠
      ([1 / 100, 1 / 100] : List ℚ).get? 1 := by
  simp only [engine_cost_step, List.map_cons, List.map_nil, List.get?]
  norm_num

/-- C3 (amended): in `Strategy.py`, the multiplier `1 - rate * turnover`
is applied exactly once — the first forward day's value becomes
`x * (1 - rate * turnover)` and every later day keeps its value —
whereas `BacktestEngine.run_backtest` instead subtracts the flat rate
from every observation of its return series. -/
theorem cost_applied_first_day_only (rate : ℚ) (t : ℕ) (x : ℚ)
    (xs : List ℚ) (i : ℕ) (hi : i ≠ 0) (l : List ℚ) (j : ℕ) :
    (apply_cost_first_day (cost_multiplier rate t) (x :: xs)).get? 0 =
      some (x * (1 - rate * t)) ∧
    (apply_cost_first_day (cost_multiplier rate t) (x :: xs)).get? i =
      (x :: xs).get? i ∧
    (engine_cost_step rate l).get? j = (l.get? j).map (fun r => r - rate) := by
  refine ⟨rfl, ?_, ?_⟩
  · cases i with
    | zero => exact absurd rfl hi
    | succ n => rfl
  · simp [engine_cost_step]

/-- Witness for the amended C3 at a concrete rate, turnover and series. -/
theorem cost_applied_first_day_only_witness :
    (apply_cost_first_day (cost_multiplier (1 / 1000) 2)
        ((1 / 100) :: [2 / 100])).get? 0 =
      some ((1 / 100 : ℚ) * (1 - (1 / 1000) * (2 : ℕ))) ∧
    (apply_cost_first_day (cost_multiplier (1 / 1000) 2)
        ((1 / 100) :: [2 / 100])).get? 1 =
      ((1 / 100 : ℚ) :: [2 / 100]).get? 1 ∧
    (engine_cost_step (1 / 1000) [1 / 100, 1 / 100]).get? 1 =
      (([1 / 100, 1 / 100] : List ℚ).get? 1).map (fun r => r - 1 / 1000) :=
  cost_applied_first_day_only (1 / 1000) 2 (1 / 100) [2 / 100] 1
    (by decide) [1 / 100, 1 / 100] 1

/-- C9: with disjoint baskets, a row contributes its raw daily return if
its ticker is in the long basket, the negated return if it is in the
short basket, and 0 otherwise; and the daily strategy return is the sum
of the per-row contributions divided by `max(|long| + |short|, 1)`. -/
theorem strategy_return_contributions (L S : Finset ℕ)
    (hd : Disjoint L S) (r : Row) (rows : List Row) (d : ℕ) :
    (r.ticker ∈ L → Strategy_Return L S r = r.ret) ∧
    (r.ticker ∈ S → Strategy_Return L S r = -r.ret) ∧
    (r.ticker ∉ L → r.ticker ∉ S → Strategy_Return L S r = 0) ∧
    daily_strategy L S rows d =
      ((rows.filter (fun r => r.date == d)).map (Strategy_Return L S)).sum /
        (max (L.card + S.card) 1 : ℕ) := by
  refine ⟨fun h => by simp [Strategy_Return, h], fun h => ?_,
    fun h1 h2 => by simp [Strategy_Return, h1, h2], ?_⟩
  · have hL : r.ticker ∉ L := fun hl => Finset.disjoint_left.mp hd hl h
    simp [Strategy_Return, hL, h]
  · have hden : n_total L S = max (L.card + S.card) 1 := by
      rw [n_total]; split <;> omega
    rw [daily_strategy, hden]

/-- Witness for C9 with baskets `{0}` and `{1}` and one concrete row. -/
theorem strategy_return_contributions_witness :
    ((⟨5, 0, 1 / 2⟩ : Row).ticker ∈ ({0} : Finset ℕ) →
      Strategy_Return {0} {1} ⟨5, 0, 1 / 2⟩ = (⟨5, 0, 1 / 2⟩ : Row).ret) ∧
    ((⟨5, 0, 1 / 2⟩ : Row).ticker ∈ ({1} : Finset ℕ) →
      Strategy_Return {0} {1} ⟨5, 0, 1 / 2⟩ = -(⟨5, 0, 1 / 2⟩ : Row).ret) ∧
    ((⟨5, 0, 1 / 2⟩ : Row).ticker ∉ ({0} : Finset ℕ) →
      (⟨5, 0, 1 / 2⟩ : Row).ticker ∉ ({1} : Finset ℕ) →
      Strategy_Return {0} {1} ⟨5, 0, 1 / 2⟩ = 0) ∧
    daily_strategy {0} {1} [⟨5, 0, 1 / 2⟩] 5 =
      (([⟨5, 0, 1 / 2⟩] : List Row).filter (fun r => r.date == 5) |>.map
          (Strategy_Return {0} {1})).sum /
        (max (({0} : Finset ℕ).card + ({1} : Finset ℕ).card) 1 : ℕ) :=
  strategy_return_contributions {0} {1} (by decide) ⟨5, 0, 1 / 2⟩
    [⟨5, 0, 1 / 2⟩] 5

/-- C4 counterexample: with eligible set `{0}` and a forward day whose
rows are ticker 0 (eligible, return 1/10) and ticker 1 (ineligible,
return 3/10), the code's benchmark is `(1/10)/2 = 1/20`, not the
equal-weight mean `1/10` over eligible instruments only — the
ineligible instrument counts in the denominator. -/
theorem daily_benchmark_mean_cex :
    daily_benchmark {0} [⟨1, 0, 1 / 10⟩, ⟨1, 1, 3 / 10⟩] 1 ≠
      daily_benchmark_eligible_only {0} [⟨1, 0, 1 / 10⟩, ⟨1, 1, 3 / 10⟩] 1 := by
  simp only [daily_benchmark, daily_benchmark_eligible_only, Benchmark_Return,
    List.filter, List.map_cons, List.map_nil, List.sum_cons, List.sum_nil,
    List.length_cons, List.length_nil]
  norm_num [Benchmark_Return]

/-- C4 (amended): the daily benchmark return equals the sum of the
daily returns of the eligible instruments divided by the number of all
rows of that date — ineligible instruments contribute 0 to the numerator
but are counted in the denominator. -/
theorem daily_benchmark_denominator_all (A : Finset ℕ) (rows : List Row)
    (d : ℕ) :
    daily_benchmark A rows d =
      (((rows.filter (fun r => r.date == d)).filter
          (fun r => decide (r.ticker ∈ A))).map Row.ret).sum /
        ((rows.filter (fun r => r.date == d)).length : ℚ) := by
  have key : ∀ g : List Row,
      (g.map (Benchmark_Return A)).sum =
        ((g.filter (fun r => decide (r.ticker ∈ A))).map Row.ret).sum := by
    intro g
    induction g with
    | nil => rfl
    | cons r rs ih =>
      by_cases h : r.ticker ∈ A <;> simp [Benchmark_Return, h, ih]
  rw [daily_benchmark, key]

/-- The constant cross-section `[1, 1]` has sample standard deviation 0. -/
lemma sample_std_const_pair : sample_std [1, 1] = 0 := by
  have hv : sample_var [1, 1] = 0 := by
    norm_num [sample_var, listMean]
  rw [sample_std, hv, Real.sqrt_zero]

/-- C5 counterexample: over the degenerate cross-section `[1, 1]` (zero
standard deviation) the z-score is NaN and the composite score is NaN,
even though the two momentum z-scores are well defined; the spec's
fallback would instead give the defined value `1 + 1 - 0 = 2`. -/
theorem degenerate_factor_score_cex :
    Factor_Score (some 1) (some 1) (zscoreOpt [1, 1] 1) = none ∧
    Factor_Score_fallback (some 1) (some 1) (zscoreOpt [1, 1] 1) = some 2 := by
  have hz : zscoreOpt [1, 1] 1 = none := by
    rw [zscoreOpt, if_pos sample_std_const_pair]
  rw [hz]
  refine ⟨rfl, ?_⟩
  rw [Factor_Score_fallback]
  norm_num

/-- C5 (amended): a factor with zero cross-sectional standard deviation
never raises an error, but its z-score is NaN (`none`) and the composite
score of every instrument is NaN as well — there is no fallback to the
remaining well-defined factors. -/
theorem degenerate_factor_gives_none (l : List ℝ) (x : ℝ)
    (h : sample_std l = 0) (z1 z2 : Option ℝ) :
    zscoreOpt l x = none ∧ Factor_Score z1 z2 (zscoreOpt l x) = none := by
  have hz : zscoreOpt l x = none := by rw [zscoreOpt, if_pos h]
  refine ⟨hz, ?_⟩
  rw [hz]
  cases z1 <;> cases z2 <;> rfl

/-- Witness for the amended C5 at the degenerate cross-section `[1, 1]`. -/
theorem degenerate_factor_gives_none_witness :
    sample_std [1, 1] = 0 ∧
    (zscoreOpt [1, 1] 1 = none ∧
      Factor_Score (some 1) (some 1) (zscoreOpt [1, 1] 1) = none) :=
  ⟨sample_std_const_pair,
   degenerate_factor_gives_none [1, 1] 1 sample_std_const_pair
     (some 1) (some 1)⟩

/-- The cross-section `[0, 2]` has mean 1, sample variance 2 and
population variance 1. -/
lemma stats_zero_two :
    listMean [0, 2] = 1 ∧ sample_var [0, 2] = 2 ∧ pop_var [0, 2] = 1 := by
  refine ⟨by norm_num [listMean], ?_, ?_⟩
  · norm_num [sample_var, listMean]
  · norm_num [pop_var, listMean]

/-- C6 counterexample: on the cross-section `[0, 2]` the code divides by
the pandas sample standard deviation `sqrt 2`, giving the value `2` the
z-score `1 / sqrt 2`, while the population standard deviation (divisor
`N`) would give `1`; the two differ. -/
theorem zscore_population_cex : zscore [0, 2] 2 ≠ zscore_pop [0, 2] 2 := by
  obtain ⟨hm, hsv, hpv⟩ := stats_zero_two
  have hs : sample_std [0, 2] = Real.sqrt 2 := by rw [sample_std, hsv]
  have hp : pop_std [0, 2] = 1 := by rw [pop_std, hpv, Real.sqrt_one]
  have h2 : (1 : ℝ) < Real.sqrt 2 := by
    have h1 : Real.sqrt 1 < Real.sqrt 2 :=
      Real.sqrt_lt_sqrt (by norm_num) (by norm_num)
    rwa [Real.sqrt_one] at h1
  rw [zscore, zscore_pop, hm, hs, hp]
  have hlt : (2 - 1 : ℝ) / Real.sqrt 2 < 1 := by
    rw [div_lt_one (lt_trans one_pos h2)]
    linarith
  intro hEq
  rw [hEq] at hlt
  norm_num at hlt

/-- C6 (amended): the code standardizes with the pandas sample standard
deviation (divisor `N - 1`); for a cross-section of at least two values
its z-score equals `sqrt ((N - 1) / N)` times the population z-score the
spec describes. -/
theorem zscore_uses_sample_std (l : List ℝ) (x : ℝ) (h : 2 ≤ l.length) :
    zscore l x =
      Real.sqrt (((l.length : ℝ) - 1) / (l.length : ℝ)) *
        zscore_pop l x := by
  have hN : (2 : ℝ) ≤ (l.length : ℝ) := by exact_mod_cast h
  have hN0 : (0 : ℝ) < (l.length : ℝ) := by linarith
  have hN1 : (0 : ℝ) < (l.length : ℝ) - 1 := by linarith
  have hc0 : (0 : ℝ) <
      Real.sqrt (((l.length : ℝ) - 1) / (l.length : ℝ)) :=
    Real.sqrt_pos.mpr (div_pos hN1 hN0)
  have hSS : 0 ≤ (l.map (fun y => (y - listMean l) ^ 2)).sum := by
    apply List.sum_nonneg
    intro a ha
    obtain ⟨y, _, rfl⟩ := List.mem_map.mp ha
    positivity
  have hkey : sample_std l *
      Real.sqrt (((l.length : ℝ) - 1) / (l.length : ℝ)) = pop_std l := by
    rw [sample_std, pop_std, sample_var, pop_var,
      ← Real.sqrt_mul (div_nonneg hSS (le_of_lt hN1))]
    congr 1
    field_simp
  rw [zscore, zscore_pop, ← hkey]
  by_cases hs : sample_std l = 0
  · simp [hs]
  · field_simp
    ring

/-- Witness for the amended C6 on the cross-section `[0, 2]`. -/
theorem zscore_uses_sample_std_witness :
    2 ≤ ([0, 2] : List ℝ).length ∧
    zscore [0, 2] 2 =
      Real.sqrt (((([0, 2] : List ℝ).length : ℝ) - 1) /
          (([0, 2] : List ℝ).length : ℝ)) * zscore_pop [0, 2] 2 :=
  ⟨by norm_num, zscore_uses_sample_std [0, 2] 2 (by norm_num)⟩

/-- Scanning the product `acc * (1 + r)` over an all-zero return list
keeps the accumulator constant. -/
lemma scanl_prod_zeros : ∀ (m : List ℝ) (a : ℝ), (∀ x ∈ m, x = 0) →
    List.scanl (fun acc r => acc * (1 + r)) a m =
      a :: List.replicate m.length a := by
  intro m
  induction m with
  | nil => intro a _; simp
  | cons y ys ih =>
    intro a hm
    have hy : y = 0 := hm y (by simp)
    simp only [List.scanl_cons, List.singleton_append, List.length_cons,
      List.replicate_succ]
    rw [hy, add_zero, mul_one, ih a (fun x hx => hm x (by simp [hx]))]

/-- Scanning `max` over a constant list keeps the constant. -/
lemma scanl_max_const : ∀ (k : ℕ) (a : ℝ),
    List.scanl max a (List.replicate k a) = a :: List.replicate k a := by
  intro k
  induction k with
  | zero => intro a; simp
  | succ n ih =>
    intro a
    rw [List.replicate_succ, List.scanl_cons, max_self, ih,
      List.singleton_append, ← List.replicate_succ]

/-- The minimum of a non-empty constant-zero list is zero. -/
lemma min_replicate_zero : ∀ m : ℕ,
    (List.replicate (m + 1) (0 : ℝ)).min? = some 0 := by
  intro m
  induction m with
  | zero => simp [List.min?_cons]
  | succ n ih => rw [List.replicate_succ, List.min?_cons, ih]; simp

/-- C8 counterexample: the single-observation series `[0]` is a return
series of all zeros, yet its annualized volatility is NaN (`none`), not
the exact 0 the claim asserts — the pandas sample standard deviation
(`ddof=1`) of one observation is NaN. -/
theorem zero_series_single_vol_cex :
    (∀ x ∈ ([0] : List ℝ), x = 0) ∧
    annual_vol [0] = none ∧ annual_vol [0] ≠ some 0 := by
  refine ⟨by simp, ?_, ?_⟩
  · rw [annual_vol, if_neg (by norm_num)]
  · rw [annual_vol, if_neg (by norm_num)]
    simp

/-- C8 (amended): on a nonempty all-zero return series the Performance
Analyzer yields annualized return exactly 0, a NaN Sharpe ratio without
raising, and maximum drawdown exactly 0; the annualized volatility is
exactly 0 when the series has at least two observations but NaN (not 0)
for a single observation, because the pandas sample standard deviation
(`ddof=1`) of one observation is NaN. -/
theorem zero_series_performance (l : List ℝ) (hz : ∀ x ∈ l, x = 0)
    (h1 : 1 ≤ l.length) :
    annual_return l = some 0 ∧
    annual_vol l = (if 2 ≤ l.length then some 0 else none) ∧
    sharpe_ratio l = none ∧ max_drawdown l = some 0 := by
  have hsum : l.sum = 0 := List.sum_eq_zero hz
  have hmean : listMean l = 0 := by rw [listMean, hsum, zero_div]
  have hlen0 : ¬ l.length = 0 := by omega
  have har : annual_return l = some 0 := by
    rw [annual_return, if_neg hlen0, hmean, zero_mul]
  have hvar : sample_var l = 0 := by
    rw [sample_var]
    have hmap : (l.map (fun x => (x - listMean l) ^ 2)).sum = 0 := by
      apply List.sum_eq_zero
      intro a ha
      obtain ⟨y, hy, rfl⟩ := List.mem_map.mp ha
      rw [hz y hy, hmean]
      norm_num
    rw [hmap, zero_div]
  have hstd : sample_std l = 0 := by rw [sample_std, hvar, Real.sqrt_zero]
  have hvol : annual_vol l = (if 2 ≤ l.length then some 0 else none) := by
    rw [annual_vol]
    by_cases h2 : 2 ≤ l.length
    · rw [if_pos h2, if_pos h2, hstd, zero_mul]
    · rw [if_neg h2, if_neg h2]
  have hsharpe : sharpe_ratio l = none := by
    rw [sharpe_ratio, hvol]
    by_cases h2 : 2 ≤ l.length
    · rw [if_pos h2]
      simp
    · rw [if_neg h2]
  have hcum : strategy_cum l = List.replicate l.length 1 := by
    rw [strategy_cum, scanl_prod_zeros l 1 hz, List.tail_cons]
  obtain ⟨m, hm⟩ : ∃ m, l.length = m + 1 := ⟨l.length - 1, by omega⟩
  have hcmax : cum_max (List.replicate l.length (1 : ℝ)) =
      List.replicate l.length 1 := by
    rw [hm, List.replicate_succ, cum_max, scanl_max_const,
      ← List.replicate_succ]
  have hdd : drawdown_series l = List.replicate l.length 0 := by
    rw [drawdown_series, hcum, hcmax, List.zip_replicate, min_self,
      List.map_replicate]
    norm_num
  refine ⟨har, hvol, hsharpe, ?_⟩
  rw [max_drawdown, hdd, hm, min_replicate_zero]

/-- Witness for the amended C8 on the concrete all-zero series
`[0, 0, 0]`, where the volatility branch with at least two observations
is taken. -/
theorem zero_series_performance_witness :
    annual_return [0, 0, 0] = some 0 ∧
    annual_vol [0, 0, 0] =
      (if 2 ≤ ([0, 0, 0] : List ℝ).length then some 0 else none) ∧
    sharpe_ratio [0, 0, 0] = none ∧ max_drawdown [0, 0, 0] = some 0 :=
  zero_series_performance [0, 0, 0] (by simp) (by norm_num)
